import Mathlib

/-!
Shallow embedding of `src/py2toml.py` (a setup.py → pyproject.toml converter)
and verification of the frozen claims about it.

Modelling conventions:
- Python AST nodes are restricted to the shapes the program distinguishes:
  `ast.Constant`, `ast.List`, `ast.Tuple`, `ast.Name`, and a catch-all
  `otherExpr` for every other expression shape (calls, binops, lambdas, ...).
- Python exceptions (AttributeError, TypeError, KeyError, UnboundLocalError)
  are modelled with `Except String`.
- `print` side effects are modelled as a list of structured `Diag` events,
  one per executed `print`, carrying the interpolated data.
- Machine strings are Lean `String`s; all helper string functions below are
  transcriptions of the CPython semantics of `str.split`, `str.strip`,
  `str.replace`, `os.path.basename` and `os.path.splitext` (posix), written
  with structural recursion so the kernel can evaluate them.
-/

namespace Py2Toml

/-! ### Python string primitives -/

/-- Whitespace characters recognized by CPython `str.strip()` / `str.split()`
(ASCII subset; non-ASCII whitespace does not occur in this development). -/
def isPySpace (c : Char) : Bool :=
  c == ' ' || c == '\t' || c == '\n' || c == '\x0b' || c == '\x0c' || c == '\r'

def pyStripL (l : List Char) : List Char :=
  ((l.dropWhile isPySpace).reverse.dropWhile isPySpace).reverse

/-- CPython `s.strip()`. -/
def pyStrip (s : String) : String :=
  String.mk (pyStripL s.data)

def splitCharAux (sep : Char) : List Char → List Char → List (List Char)
  | [], acc => [acc.reverse]
  | c :: cs, acc =>
    if c == sep then acc.reverse :: splitCharAux sep cs []
    else splitCharAux sep cs (c :: acc)

/-- CPython `s.split(sep)` for a one-character separator: keeps empty
segments, and yields `[""]` on the empty string. -/
def pySplitChar (sep : Char) (s : String) : List String :=
  (splitCharAux sep s.data []).map String.mk

def splitWsAux : List Char → List Char → List (List Char)
  | [], acc => if acc.isEmpty then [] else [acc.reverse]
  | c :: cs, acc =>
    if isPySpace c then
      if acc.isEmpty then splitWsAux cs []
      else acc.reverse :: splitWsAux cs []
    else splitWsAux cs (c :: acc)

/-- CPython `s.split()` (no argument): split on whitespace runs, dropping
empty segments. -/
def pySplitWs (s : String) : List String :=
  (splitWsAux s.data []).map String.mk

/-- CPython `sep.join(parts)`. -/
def joinSep (sep : String) : List String → String
  | [] => ""
  | [x] => x
  | x :: y :: xs => x ++ sep ++ joinSep sep (y :: xs)

/-- `" ".join(s.split())`: collapse whitespace runs to single spaces
(also trims the ends) — line 48 of the source. -/
def pyCollapseWs (s : String) : String :=
  joinSep " " (pySplitWs s)

/-- `[x.strip() for x in s.split(",")]` — the author/author_email rule,
line 33 of the source. -/
def splitCommaStrip (s : String) : List String :=
  (pySplitChar ',' s).map pyStrip

/-- One left-to-right, non-overlapping replacement pass, structural on a
fuel argument (the scanned list never outlives its length in fuel). -/
def pyReplaceL (pat rep : List Char) : Nat → List Char → List Char
  | _, [] => []
  | 0, l => l
  | n + 1, c :: cs =>
    if pat.isPrefixOf (c :: cs) then
      rep ++ pyReplaceL pat rep n (List.drop (pat.length - 1) cs)
    else
      c :: pyReplaceL pat rep n cs

/-- CPython `s.replace(pat, rep)` for a non-empty pattern: a single
left-to-right scan replacing non-overlapping occurrences. -/
def pyReplace (s pat rep : String) : String :=
  String.mk (pyReplaceL pat.data rep.data s.data.length s.data)

def subOcc (pat : List Char) : List Char → Bool
  | [] => pat.isEmpty
  | c :: cs => pat.isPrefixOf (c :: cs) || subOcc pat cs

/-- `pat in s` (substring occurrence). -/
def occursIn (pat s : String) : Bool :=
  subOcc pat.data s.data

def lastIdx (c : Char) (l : List Char) : Option Nat :=
  match l.reverse.findIdx? (fun x => x == c) with
  | Option.none => Option.none
  | Option.some i => Option.some (l.length - 1 - i)

/-- posixpath `os.path.basename(p)`: the part after the last slash. -/
def pyBasename (p : String) : String :=
  String.mk ((p.data.reverse.takeWhile (fun c => c != '/')).reverse)

/-- posixpath `os.path.splitext(p)[0]`: drop the extension at the last dot,
provided that dot lies after the last slash and the base name has at least
one non-dot character before it (so ".bashrc" keeps its dot). -/
def pySplitextRoot (p : String) : String :=
  let cs := p.data
  match lastIdx '.' cs with
  | Option.none => p
  | Option.some d =>
    let s : Nat :=
      match lastIdx '/' cs with
      | Option.none => 0
      | Option.some i => i + 1
    if s ≤ d ∧ ((cs.drop s).take (d - s)).any (fun c => c != '.') then
      String.mk (cs.take d)
    else p

/-! ### Python values, AST shapes, diagnostics -/

/-- Constant values that can sit in an `ast.Constant` node here. -/
inductive PyConst where
  | str (s : String)
  | int (n : Int)
  | bool (b : Bool)
  | none
deriving DecidableEq, Repr

/-- A value stored in the metadata dict: a string, a list of strings, or a
scalar constant passed through unchanged. -/
inductive Value where
  | str (s : String)
  | list (l : List String)
  | scalar (c : PyConst)
deriving DecidableEq, Repr

/-- The metadata dict: insertion-ordered association list, updates replace
in place (Python dict semantics; only lookups matter downstream). -/
abbrev Metadata := List (String × Value)

def mset : Metadata → String → Value → Metadata
  | [], k, v => [(k, v)]
  | (k', v') :: rest, k, v =>
    if k' = k then (k', v) :: rest else (k', v') :: mset rest k v

def mget : Metadata → String → Option Value
  | [], _ => Option.none
  | (k', v') :: rest, k => if k' = k then Option.some v' else mget rest k

/-- `metadata.get(k, default)`. -/
def mgetD (m : Metadata) (k : String) (dflt : Value) : Value :=
  (mget m k).getD dflt

/-- One `print` event, carrying the data the source interpolates. -/
inductive Diag where
  | badKeyword
  | addedList (arg : String) (v : List String)
  | addedConst (arg : String) (c : PyConst)
  | addedName (arg id : String)
  | authorEmailMismatch
  | metadataSummary (m : Metadata)
  | couldNotFindSetup
  | usage
  | conversionComplete (path : String)
deriving DecidableEq, Repr

/-- Expression shapes the extractor distinguishes; `otherExpr` stands for
every other `ast` expression (calls, binops, comprehensions, ...). -/
inductive PyExpr where
  | constant (c : PyConst)
  | list (elts : List PyExpr)
  | tuple (elts : List PyExpr)
  | name (id : String)
  | otherExpr

structure PyKeyword where
  arg : Option String
  value : PyExpr

/-- The callee of a call node: a simple name, an attribute access (only the
final attribute matters to the source), or anything else (which has neither
an `id` nor an `attr` field). -/
inductive PyFunc where
  | name (s : String)
  | attr (s : String)
  | other

structure PyCall where
  func : PyFunc
  keywords : List PyKeyword

/-- A node in `ast.walk` order: a call node or any non-call node. -/
inductive PyNode where
  | callNode (c : PyCall)
  | otherNode

/-! ### The program -/

/-- Lines 13-23. `node.func.id` raises AttributeError on non-Name callees
(caught), then `node.func.attr` raises again on non-Attribute callees
(uncaught — modelled as an error). -/
def find_setup_function : List PyNode → Except String (Option PyCall)
  | [] => Except.ok Option.none
  | PyNode.otherNode :: rest => find_setup_function rest
  | PyNode.callNode c :: rest =>
    match c.func with
    | PyFunc.name s =>
      if s = "setup" then Except.ok (Option.some c) else find_setup_function rest
    | PyFunc.attr s =>
      if s = "setup" then Except.ok (Option.some c) else find_setup_function rest
    | PyFunc.other => Except.error "AttributeError: func object has no attribute attr"

/-- Lines 36-43 (the `keywords` string case): split on commas; if that gave
one segment, split on whitespace instead; strip (line 40), then the shared
strip at line 43 runs again. -/
def keywordsOfString (s : String) : List String :=
  let ks := pySplitChar ',' s
  let ks := if ks.length = 1 then pySplitWs s else ks
  let ks := ks.map pyStrip
  ks.map pyStrip

/-- Line 54: `[elt.value.strip() for elt in elts]`; any element that is not
a string constant raises AttributeError. -/
def stripElems : List PyExpr → Except String (List String)
  | [] => Except.ok []
  | PyExpr.constant (PyConst.str s) :: rest =>
    match stripElems rest with
    | Except.error e => Except.error e
    | Except.ok l => Except.ok (pyStrip s :: l)
  | _ :: _ => Except.error "AttributeError: element has no string value to strip"

/-- Lines 28-60: the per-keyword loop. The loop-carried `value` variable is
explicit (`v`): Python assigns `metadata[keyword.arg] = value` on line 60
even when no branch matched, reusing the previous iteration's `value`, and
raises UnboundLocalError when no previous iteration set one. -/
def extractLoop : List PyKeyword → Metadata → Option Value → List Diag →
    Except String (Metadata × Option Value × List Diag)
  | [], m, v, d => Except.ok (m, v, d)
  | ⟨argOpt, val⟩ :: rest, m, v, d =>
    match argOpt with
    | Option.none =>
      -- line 29-31: non-string keyword name (e.g. **kwargs) → print, continue
      extractLoop rest m v (d ++ [Diag.badKeyword])
    | Option.some a =>
      if a = "author" ∨ a = "author_email" then
        match val with
        | PyExpr.constant (PyConst.str s) =>
          let lst := splitCommaStrip s
          extractLoop rest (mset m a (Value.list lst)) (Option.some (Value.list lst))
            (d ++ [Diag.addedList a lst])
        | PyExpr.constant _ => Except.error "AttributeError: object has no attribute split"
        | _ => Except.error "AttributeError: object has no attribute value"
      else if a = "keywords" then
        match val with
        | PyExpr.constant (PyConst.str s) =>
          let lst := keywordsOfString s
          extractLoop rest (mset m a (Value.list lst)) (Option.some (Value.list lst))
            (d ++ [Diag.addedList a lst])
        | PyExpr.constant _ => Except.error "TypeError: object is not iterable"
        | _ => Except.error "AttributeError: object has no attribute value"
      else
        match val with
        | PyExpr.constant c =>
          let newV : Value :=
            match c with
            | PyConst.str s => Value.str (pyCollapseWs s)
            | _ => Value.scalar c
          extractLoop rest (mset m a newV) (Option.some newV) (d ++ [Diag.addedConst a c])
        | PyExpr.list elts =>
          match stripElems elts with
          | Except.error e => Except.error e
          | Except.ok lst =>
            extractLoop rest (mset m a (Value.list lst)) (Option.some (Value.list lst))
              (d ++ [Diag.addedList a lst])
        | PyExpr.tuple elts =>
          match stripElems elts with
          | Except.error e => Except.error e
          | Except.ok lst =>
            extractLoop rest (mset m a (Value.list lst)) (Option.some (Value.list lst))
              (d ++ [Diag.addedList a lst])
        | PyExpr.name id =>
          extractLoop rest (mset m a (Value.str id)) (Option.some (Value.str id))
            (d ++ [Diag.addedName a id])
        | PyExpr.otherExpr =>
          -- no branch matched: line 60 still runs with the stale value
          match v with
          | Option.none => Except.error "UnboundLocalError: value"
          | Option.some stale => extractLoop rest (mset m a stale) (Option.some stale) d

/-- CPython `len(x)`: defined for strings and lists, TypeError otherwise. -/
def pyLen : Value → Except String Nat
  | Value.str s => Except.ok s.length
  | Value.list l => Except.ok l.length
  | Value.scalar _ => Except.error "TypeError: object has no len"

/-- Iterating a value: a list yields its elements, a string its characters
as one-character strings, anything else raises TypeError. -/
def valueAsIterStrs : Value → Except String (List String)
  | Value.str s => Except.ok (s.data.map String.singleton)
  | Value.list l => Except.ok l
  | Value.scalar _ => Except.error "TypeError: object is not iterable"

/-- Lines 71-73: `[f"{author} <{email}>" for author, email in zip(...)]`. -/
def mergeAuthors (authors emails : List String) : List String :=
  List.zipWith (fun a e => a ++ " <" ++ e ++ ">") authors emails

/-- Lines 26-77: the extractor, including the author/email post-pass.
`metadata["author"]` on line 64 raises KeyError when absent. -/
def extract_metadata_from_setup (node : PyCall) : Except String (Metadata × List Diag) :=
  match extractLoop node.keywords [] Option.none [] with
  | Except.error e => Except.error e
  | Except.ok (m, _, d) =>
    match mget m "author_email" with
    | Option.none => Except.ok (m, d ++ [Diag.metadataSummary m])
    | Option.some emails =>
      match mget m "author" with
      | Option.none => Except.error "KeyError: author"
      | Option.some authors =>
        match pyLen authors with
        | Except.error e => Except.error e
        | Except.ok la =>
          match pyLen emails with
          | Except.error e => Except.error e
          | Except.ok le =>
            if la ≠ le then
              Except.ok (m, d ++ [Diag.authorEmailMismatch, Diag.metadataSummary m])
            else
              match valueAsIterStrs authors with
              | Except.error e => Except.error e
              | Except.ok as_ =>
                match valueAsIterStrs emails with
                | Except.error e => Except.error e
                | Except.ok es =>
                  let m2 := mset m "author" (Value.list (mergeAuthors as_ es))
                  Except.ok (m2, d ++ [Diag.metadataSummary m2])

/-- Lines 80-94. File reading is the caller's concern (see `main`); this
takes the parsed tree in walk order. -/
def parse_setup_py (tree : List PyNode) : Except String (Metadata × List Diag) :=
  match find_setup_function tree with
  | Except.error e => Except.error e
  | Except.ok (Option.some node) => extract_metadata_from_setup node
  | Except.ok Option.none => Except.ok ([], [Diag.couldNotFindSetup])

/-! ### Rendering -/

/-- CPython `repr` of a string, as used by `str(list_of_strings)`: single
quotes unless the string contains a single quote and no double quote;
backslashes, the quote character, and common control characters escaped
(inputs in this development are printable). -/
def pyReprStr (s : String) : String :=
  let q : Char := if s.data.contains '\'' && !(s.data.contains '"') then '"' else '\''
  let body := s.data.foldr (fun c acc =>
    (if c == '\\' then "\\\\"
     else if c == q then String.singleton '\\' ++ String.singleton q
     else if c == '\n' then "\\n"
     else if c == '\r' then "\\r"
     else if c == '\t' then "\\t"
     else String.singleton c) ++ acc) ""
  String.singleton q ++ body ++ String.singleton q

/-- CPython `str()` of a constant. -/
def pyConstStr : PyConst → String
  | PyConst.str s => s
  | PyConst.int n => toString n
  | PyConst.bool b => if b then "True" else "False"
  | PyConst.none => "None"

/-- CPython `str()` of a metadata value, as interpolated by the f-string
template (lists print as Python reprs). -/
def pyStr : Value → String
  | Value.str s => s
  | Value.list l => "[" ++ joinSep ", " (l.map pyReprStr) ++ "]"
  | Value.scalar c => pyConstStr c

/-- CPython truthiness of a metadata value. -/
def pyTruthy : Value → Bool
  | Value.str s => !s.data.isEmpty
  | Value.list l => !l.isEmpty
  | Value.scalar (PyConst.int n) => n ≠ 0
  | Value.scalar (PyConst.bool b) => b
  | Value.scalar (PyConst.str s) => !s.data.isEmpty
  | Value.scalar PyConst.none => false

/-- Lines 98-100: the classifiers block. A truthy value is iterated into a
multi-line bracketed list; a falsy one is interpolated via `str()`. -/
def classifiersBlock (m : Metadata) : Except String String :=
  let c := mgetD m "classifiers" (Value.list [])
  if pyTruthy c then
    match valueAsIterStrs c with
    | Except.error e => Except.error e
    | Except.ok elems =>
      Except.ok ("[\n" ++ joinSep "\n" (elems.map (fun cls => "    \"" ++ cls ++ "\",")) ++ "\n]")
  else
    Except.ok (pyStr c)

/-- Lines 128-129. -/
def generate_dependency_section (install_requires : List String) : String :=
  joinSep "\n" (install_requires.map (fun req => req ++ " = \"*\""))

/-- The per-entry line of `scripts_section` (line 134). -/
def scriptLine (script : String) : String :=
  pySplitextRoot (pyBasename script) ++ " = \"" ++ script ++ ".__main__:main\""

/-- Lines 132-136. -/
def scripts_section (scripts : List String) : String :=
  joinSep "\n" (scripts.map scriptLine)

/-- Lines 102-123: the filled f-string template, before the blank-line
collapsing pass. -/
def pyprojectTemplate (m : Metadata) : Except String String :=
  match classifiersBlock m with
  | Except.error e => Except.error e
  | Except.ok cls =>
    match valueAsIterStrs (mgetD m "install_requires" (Value.list [])) with
    | Except.error e => Except.error e
    | Except.ok deps =>
      match valueAsIterStrs (mgetD m "scripts" (Value.list [])) with
      | Except.error e => Except.error e
      | Except.ok scrs =>
        Except.ok
          ("[tool.poetry]\nname = \"" ++ pyStr (mgetD m "name" (Value.str "")) ++
           "\"\nversion = \"" ++ pyStr (mgetD m "version" (Value.str "")) ++
           "\"\ndescription = \"" ++ pyStr (mgetD m "description" (Value.str "")) ++
           "\"\nlicense = \"" ++ pyStr (mgetD m "license" (Value.str "")) ++
           "\"\nauthors = " ++ pyStr (mgetD m "author" (Value.str "[]")) ++
           "\nreadme = \"README.md\"\nrepository = \"" ++ pyStr (mgetD m "url" (Value.str "")) ++
           "\"\nkeywords = " ++ pyStr (mgetD m "keywords" (Value.str "[]")) ++
           "\nclassifiers = " ++ cls ++
           "\n\n[tool.poetry.dependencies]\npython = \"" ++
           pyStr (mgetD m "python_requires" (Value.str ">=3.5")) ++
           "\"\n" ++ generate_dependency_section deps ++
           "\n\n[tool.poetry.scripts]\n" ++ scripts_section scrs ++
           "\n\n[build-system]\nrequires = [\"poetry-core\"]\nbuild-backend = \"poetry.core.masonry.api\"\n")

/-- Lines 97-125: the template followed by the single
`.replace("\n\n\n", "\n\n")` pass (line 125). -/
def generate_pyproject_toml (m : Metadata) : Except String String :=
  match pyprojectTemplate m with
  | Except.error e => Except.error e
  | Except.ok t => Except.ok (pyReplace t "\n\n\n" "\n\n")

/-! ### Entry point -/

inductive IOEvent where
  | readF (path : String)
  | writeF (path : String) (content : String)
  | msg (d : Diag)
deriving DecidableEq, Repr

inductive MainResult where
  | exited (code : Nat)
  | crashed (err : String)
  | completed
deriving DecidableEq, Repr

/-- Lines 144-157. `argv` is the full `sys.argv` (program name included);
the filesystem-and-parser is an oracle from path to parsed tree (absent =
unreadable, a fatal I/O error). Prints before a crash are elided on crash
paths; no claim inspects them. -/
def main (argv : List String) (fs : String → Option (List PyNode)) :
    MainResult × List IOEvent :=
  match argv with
  | [_, setupPath, outPath] =>
    (match fs setupPath with
     | Option.none => (MainResult.crashed "FileNotFoundError", [])
     | Option.some tree =>
       match parse_setup_py tree with
       | Except.error e => (MainResult.crashed e, [IOEvent.readF setupPath])
       | Except.ok (md, diags) =>
         match generate_pyproject_toml md with
         | Except.error e =>
           (MainResult.crashed e, [IOEvent.readF setupPath] ++ diags.map IOEvent.msg)
         | Except.ok content =>
           (MainResult.completed,
            [IOEvent.readF setupPath] ++ diags.map IOEvent.msg ++
              [IOEvent.writeF outPath content, IOEvent.msg (Diag.conversionComplete outPath)]))
  | _ => (MainResult.exited 1, [IOEvent.msg Diag.usage])

/-- An event that touches the filesystem. -/
def isFileEvent : IOEvent → Bool
  | IOEvent.readF _ => true
  | IOEvent.writeF _ _ => true
  | IOEvent.msg _ => false

/-- A node whose callee (if it is a call at all) is a simple or
attribute-qualified name other than `setup`: the shapes `find_setup_function`
walks past without raising and without matching. -/
def benignNonSetup : PyNode → Bool
  | PyNode.callNode c =>
    (match c.func with
     | PyFunc.name s => s != "setup"
     | PyFunc.attr s => s != "setup"
     | PyFunc.other => false)
  | PyNode.otherNode => true

/-! ### Dictionary helper lemmas -/

theorem mget_mset_self (m : Metadata) (k : String) (v : Value) :
    mget (mset m k v) k = Option.some v := by
  induction m with
  | nil => simp [mset, mget]
  | cons p rest ih =>
    obtain ⟨k', v'⟩ := p
    by_cases h : k' = k
    · simp [mset, mget, h]
    · simp [mset, mget, h, ih]

theorem mget_mset_of_ne (m : Metadata) (k k' : String) (v : Value) (h : k ≠ k') :
    mget (mset m k v) k' = mget m k' := by
  induction m with
  | nil => simp [mset, mget, h]
  | cons p rest ih =>
    obtain ⟨a, b⟩ := p
    by_cases h2 : a = k
    · subst h2
      simp [mset, mget, h]
    · simp [mset, mget, h2, ih]

/-! ### Claim theorems -/

/-- A single loop step on a keyword whose name matches no name rule and
whose value matches no shape rule: line 60 still runs, writing the stale
`value` from a previous iteration. -/
theorem extractLoop_other_stale (a : String) (rest : List PyKeyword) (m : Metadata)
    (v : Value) (d : List Diag)
    (h1 : a ≠ "author") (h2 : a ≠ "author_email") (h3 : a ≠ "keywords") :
    extractLoop (⟨Option.some a, PyExpr.otherExpr⟩ :: rest) m (Option.some v) d =
      extractLoop rest (mset m a v) (Option.some v) d := by
  simp only [extractLoop]
  rw [if_neg (not_or.mpr ⟨h1, h2⟩), if_neg h3]

/-- The same step when no previous iteration assigned `value`:
UnboundLocalError. -/
theorem extractLoop_other_unbound (a : String) (rest : List PyKeyword) (m : Metadata)
    (d : List Diag)
    (h1 : a ≠ "author") (h2 : a ≠ "author_email") (h3 : a ≠ "keywords") :
    extractLoop (⟨Option.some a, PyExpr.otherExpr⟩ :: rest) m Option.none d =
      Except.error "UnboundLocalError: value" := by
  simp only [extractLoop]
  rw [if_neg (not_or.mpr ⟨h1, h2⟩), if_neg h3]

/-- Claim C1 counterexample: in `setup(name="x", version=<computed>)` the
unrecognized `version` value is NOT silently omitted — the extractor
assigns it the stale value `"x"` computed for `name`, so the field is
present in the returned mapping. -/
theorem c1_counterexample :
    extract_metadata_from_setup ⟨PyFunc.name "setup",
        [⟨Option.some "name", PyExpr.constant (PyConst.str "x")⟩,
         ⟨Option.some "version", PyExpr.otherExpr⟩]⟩ =
      Except.ok ([("name", Value.str "x"), ("version", Value.str "x")],
        [Diag.addedConst "name" (PyConst.str "x"),
         Diag.metadataSummary [("name", Value.str "x"), ("version", Value.str "x")]]) ∧
    mget [("name", Value.str "x"), ("version", Value.str "x")] "version" =
      Option.some (Value.str "x") :=
  ⟨rfl, rfl⟩

/-- Claim C1 (amended): for a keyword argument whose value matches none of
the recognized shapes, the extractor does not omit the field: if it is the
first keyword processed, extraction raises UnboundLocalError and returns no
mapping; otherwise the field is present in the mapping, bound to the stale
value computed for the most recent previous keyword. -/
theorem c1_amended (a s : String) (f : PyFunc)
    (h1 : a ≠ "author") (h2 : a ≠ "author_email") (h3 : a ≠ "keywords") :
    extract_metadata_from_setup ⟨f, [⟨Option.some a, PyExpr.otherExpr⟩]⟩ =
      Except.error "UnboundLocalError: value" ∧
    ∃ m d, extract_metadata_from_setup
        ⟨f, [⟨Option.some "name", PyExpr.constant (PyConst.str s)⟩,
             ⟨Option.some a, PyExpr.otherExpr⟩]⟩ = Except.ok (m, d) ∧
      mget m a = Option.some (Value.str (pyCollapseWs s)) := by
  constructor
  · simp only [extract_metadata_from_setup]
    rw [extractLoop_other_unbound a [] [] [] h1 h2 h3]
  · have st1 : extractLoop
        [⟨Option.some "name", PyExpr.constant (PyConst.str s)⟩,
         ⟨Option.some a, PyExpr.otherExpr⟩] [] Option.none [] =
        extractLoop [⟨Option.some a, PyExpr.otherExpr⟩]
          [("name", Value.str (pyCollapseWs s))]
          (Option.some (Value.str (pyCollapseWs s)))
          [Diag.addedConst "name" (PyConst.str s)] := rfl
    have hloop : extractLoop
        [⟨Option.some "name", PyExpr.constant (PyConst.str s)⟩,
         ⟨Option.some a, PyExpr.otherExpr⟩] [] Option.none [] =
        Except.ok
          (mset [("name", Value.str (pyCollapseWs s))] a (Value.str (pyCollapseWs s)),
           Option.some (Value.str (pyCollapseWs s)),
           [Diag.addedConst "name" (PyConst.str s)]) := by
      rw [st1, extractLoop_other_stale a [] _ _ _ h1 h2 h3]
      rfl
    refine ⟨mset [("name", Value.str (pyCollapseWs s))] a (Value.str (pyCollapseWs s)),
      [Diag.addedConst "name" (PyConst.str s),
       Diag.metadataSummary
         (mset [("name", Value.str (pyCollapseWs s))] a (Value.str (pyCollapseWs s)))],
      ?_, mget_mset_self _ _ _⟩
    simp only [extract_metadata_from_setup, hloop]
    rw [mget_mset_of_ne _ _ _ _ (fun hc => h2 hc)]
    rfl

/-- Witness for `c1_amended` at `a := "version"`, `s := "x"`. -/
theorem c1_amended_witness :
    ("version" ≠ "author" ∧ "version" ≠ "author_email" ∧ "version" ≠ "keywords") ∧
    (extract_metadata_from_setup
        ⟨PyFunc.name "setup", [⟨Option.some "version", PyExpr.otherExpr⟩]⟩ =
        Except.error "UnboundLocalError: value" ∧
      ∃ m d, extract_metadata_from_setup
          ⟨PyFunc.name "setup",
           [⟨Option.some "name", PyExpr.constant (PyConst.str "x")⟩,
            ⟨Option.some "version", PyExpr.otherExpr⟩]⟩ = Except.ok (m, d) ∧
        mget m "version" = Option.some (Value.str (pyCollapseWs "x"))) :=
  ⟨⟨by decide, by decide, by decide⟩,
   c1_amended "version" "x" (PyFunc.name "setup") (by decide) (by decide) (by decide)⟩

/-- Claim C3: on `setup(keywords=["a", "b"])` — a `keywords` argument whose
value is a list literal — the extractor does NOT use the elements directly;
it crashes with AttributeError while evaluating `keyword.value.value`
(line 36), because an `ast.List` node has no `value` attribute. -/
theorem c3_crash :
    extract_metadata_from_setup ⟨PyFunc.name "setup",
        [⟨Option.some "keywords",
          PyExpr.list [PyExpr.constant (PyConst.str "a"),
                       PyExpr.constant (PyConst.str "b")]⟩]⟩ =
      Except.error "AttributeError: object has no attribute value" :=
  rfl

/-- Claim C10: a `keywords` value that is a single string is comma-split
(then trimmed); when comma-splitting yields exactly one segment the
whitespace-splitting fallback applies. Both `"a, b, c"` and `"a b c"` yield
`["a", "b", "c"]`. -/
theorem c10_keywords_split (s : String) :
    extract_metadata_from_setup ⟨PyFunc.name "setup",
        [⟨Option.some "keywords", PyExpr.constant (PyConst.str s)⟩]⟩ =
      Except.ok ([("keywords", Value.list (keywordsOfString s))],
        [Diag.addedList "keywords" (keywordsOfString s),
         Diag.metadataSummary [("keywords", Value.list (keywordsOfString s))]]) ∧
    keywordsOfString "a, b, c" = ["a", "b", "c"] ∧
    keywordsOfString "a b c" = ["a", "b", "c"] :=
  ⟨rfl, by decide, by decide⟩

/-- The tree walker returns an absent result on a tree whose call nodes all
have simple or attribute-qualified callees not named `setup`. -/
theorem find_setup_none (tree : List PyNode) :
    (∀ n ∈ tree, benignNonSetup n = true) →
      find_setup_function tree = Except.ok Option.none := by
  induction tree with
  | nil => intro _; rfl
  | cons n rest ih =>
    intro h
    have hn := h n (List.mem_cons_self n rest)
    have hrest := ih fun x hx => h x (List.mem_cons_of_mem n hx)
    cases n with
    | otherNode => simpa [find_setup_function] using hrest
    | callNode c =>
      cases hc : c.func with
      | name s =>
        have hs : s ≠ "setup" := by simpa [benignNonSetup, hc] using hn
        simp [find_setup_function, hc, hs, hrest]
      | attr s =>
        have hs : s ≠ "setup" := by simpa [benignNonSetup, hc] using hn
        simp [find_setup_function, hc, hs, hrest]
      | other => simp [benignNonSetup, hc] at hn

/-- Claim C2 counterexample: a parseable file containing a single call whose
callee is neither a simple name nor an attribute access (e.g. `f()()`), and
hence no call named `setup`, makes the pipeline raise: `node.func.attr` on
line 19 throws an uncaught AttributeError. -/
theorem c2_counterexample :
    find_setup_function [PyNode.callNode ⟨PyFunc.other, []⟩] =
      Except.error "AttributeError: func object has no attribute attr" ∧
    parse_setup_py [PyNode.callNode ⟨PyFunc.other, []⟩] =
      Except.error "AttributeError: func object has no attribute attr" :=
  ⟨rfl, rfl⟩

set_option maxRecDepth 8192 in
/-- Claim C2 (amended): for every parseable source file with no `setup` call
and in which every call's callee is a simple or attribute-qualified name,
the pipeline does not raise: the walker returns an absent result,
`parse_setup_py` reports a diagnostic and continues with an empty mapping,
and the manifest produced from the empty mapping has empty defaults for
name, version, description and license, and python constraint `>=3.5`. -/
theorem c2_amended (tree : List PyNode)
    (h : ∀ n ∈ tree, benignNonSetup n = true) :
    find_setup_function tree = Except.ok Option.none ∧
    parse_setup_py tree = Except.ok ([], [Diag.couldNotFindSetup]) ∧
    ∃ s, generate_pyproject_toml ([] : Metadata) = Except.ok s ∧
      occursIn "name = \"\"" s = true ∧
      occursIn "version = \"\"" s = true ∧
      occursIn "description = \"\"" s = true ∧
      occursIn "license = \"\"" s = true ∧
      occursIn "python = \">=3.5\"" s = true := by
  have hfind := find_setup_none tree h
  refine ⟨hfind, ?_, ?_⟩
  · simp [parse_setup_py, hfind]
  · exact ⟨_, rfl, by decide, by decide, by decide, by decide, by decide⟩

/-- Witness for `c2_amended` on a tree with one non-call node and one call
to `print`. -/
theorem c2_amended_witness :
    (∀ n ∈ [PyNode.otherNode, PyNode.callNode ⟨PyFunc.name "print", []⟩],
      benignNonSetup n = true) ∧
    (find_setup_function
        [PyNode.otherNode, PyNode.callNode ⟨PyFunc.name "print", []⟩] =
      Except.ok Option.none ∧
    parse_setup_py [PyNode.otherNode, PyNode.callNode ⟨PyFunc.name "print", []⟩] =
      Except.ok ([], [Diag.couldNotFindSetup]) ∧
    ∃ s, generate_pyproject_toml ([] : Metadata) = Except.ok s ∧
      occursIn "name = \"\"" s = true ∧
      occursIn "version = \"\"" s = true ∧
      occursIn "description = \"\"" s = true ∧
      occursIn "license = \"\"" s = true ∧
      occursIn "python = \">=3.5\"" s = true) :=
  ⟨by decide, c2_amended [PyNode.otherNode, PyNode.callNode ⟨PyFunc.name "print", []⟩] (by decide)⟩

/-- Claim C4: when the extracted mapping holds `author` and `author_email`
as sequences of unequal length, the merger emits a diagnostic and leaves
`author` exactly as parsed; extraction still returns the mapping. -/
theorem c4_mismatch_keeps_author (kws : List PyKeyword) (f : PyFunc) (m : Metadata)
    (v : Option Value) (d : List Diag) (A E : List String)
    (hl : extractLoop kws [] Option.none [] = Except.ok (m, v, d))
    (hA : mget m "author" = Option.some (Value.list A))
    (hE : mget m "author_email" = Option.some (Value.list E))
    (hne : A.length ≠ E.length) :
    extract_metadata_from_setup ⟨f, kws⟩ =
      Except.ok (m, d ++ [Diag.authorEmailMismatch, Diag.metadataSummary m]) := by
  simp only [extract_metadata_from_setup, hl, hE, hA, pyLen]
  rw [if_pos hne]

/-- Witness for `c4_mismatch_keeps_author` on
`setup(author="Alice, Bob", author_email="a@x.com")`. -/
theorem c4_witness :
    (extractLoop
        [⟨Option.some "author", PyExpr.constant (PyConst.str "Alice, Bob")⟩,
         ⟨Option.some "author_email", PyExpr.constant (PyConst.str "a@x.com")⟩]
        [] Option.none [] =
      Except.ok ([("author", Value.list ["Alice", "Bob"]),
                  ("author_email", Value.list ["a@x.com"])],
        Option.some (Value.list ["a@x.com"]),
        [Diag.addedList "author" ["Alice", "Bob"],
         Diag.addedList "author_email" ["a@x.com"]])) ∧
    (["Alice", "Bob"].length ≠ ["a@x.com"].length) ∧
    extract_metadata_from_setup ⟨PyFunc.name "setup",
        [⟨Option.some "author", PyExpr.constant (PyConst.str "Alice, Bob")⟩,
         ⟨Option.some "author_email", PyExpr.constant (PyConst.str "a@x.com")⟩]⟩ =
      Except.ok ([("author", Value.list ["Alice", "Bob"]),
                  ("author_email", Value.list ["a@x.com"])],
        [Diag.addedList "author" ["Alice", "Bob"],
         Diag.addedList "author_email" ["a@x.com"],
         Diag.authorEmailMismatch,
         Diag.metadataSummary [("author", Value.list ["Alice", "Bob"]),
                               ("author_email", Value.list ["a@x.com"])]]) :=
  ⟨rfl, by decide,
   c4_mismatch_keeps_author
     [⟨Option.some "author", PyExpr.constant (PyConst.str "Alice, Bob")⟩,
      ⟨Option.some "author_email", PyExpr.constant (PyConst.str "a@x.com")⟩]
     (PyFunc.name "setup")
     [("author", Value.list ["Alice", "Bob"]), ("author_email", Value.list ["a@x.com"])]
     (Option.some (Value.list ["a@x.com"]))
     [Diag.addedList "author" ["Alice", "Bob"], Diag.addedList "author_email" ["a@x.com"]]
     ["Alice", "Bob"] ["a@x.com"]
     rfl rfl rfl (by decide)⟩

/-- Claim C5: when the extracted mapping holds `author` and `author_email`
as sequences of equal length, the merger replaces `author` with the
sequence pairing each name with its same-index email as `name <email>`. -/
theorem c5_merge_authors (kws : List PyKeyword) (f : PyFunc) (m : Metadata)
    (v : Option Value) (d : List Diag) (A E : List String)
    (hl : extractLoop kws [] Option.none [] = Except.ok (m, v, d))
    (hA : mget m "author" = Option.some (Value.list A))
    (hE : mget m "author_email" = Option.some (Value.list E))
    (heq : A.length = E.length) :
    extract_metadata_from_setup ⟨f, kws⟩ =
      Except.ok (mset m "author" (Value.list (mergeAuthors A E)),
        d ++ [Diag.metadataSummary (mset m "author" (Value.list (mergeAuthors A E)))]) := by
  simp only [extract_metadata_from_setup, hl, hE, hA, pyLen, valueAsIterStrs]
  rw [if_neg (fun hn => hn heq)]

/-- Witness for `c5_merge_authors` on
`setup(author="Alice, Bob", author_email="a@x.com, b@y.com")`. -/
theorem c5_witness :
    (extractLoop
        [⟨Option.some "author", PyExpr.constant (PyConst.str "Alice, Bob")⟩,
         ⟨Option.some "author_email", PyExpr.constant (PyConst.str "a@x.com, b@y.com")⟩]
        [] Option.none [] =
      Except.ok ([("author", Value.list ["Alice", "Bob"]),
                  ("author_email", Value.list ["a@x.com", "b@y.com"])],
        Option.some (Value.list ["a@x.com", "b@y.com"]),
        [Diag.addedList "author" ["Alice", "Bob"],
         Diag.addedList "author_email" ["a@x.com", "b@y.com"]])) ∧
    (["Alice", "Bob"].length = ["a@x.com", "b@y.com"].length) ∧
    extract_metadata_from_setup ⟨PyFunc.name "setup",
        [⟨Option.some "author", PyExpr.constant (PyConst.str "Alice, Bob")⟩,
         ⟨Option.some "author_email", PyExpr.constant (PyConst.str "a@x.com, b@y.com")⟩]⟩ =
      Except.ok ([("author", Value.list ["Alice <a@x.com>", "Bob <b@y.com>"]),
                  ("author_email", Value.list ["a@x.com", "b@y.com"])],
        [Diag.addedList "author" ["Alice", "Bob"],
         Diag.addedList "author_email" ["a@x.com", "b@y.com"],
         Diag.metadataSummary [("author", Value.list ["Alice <a@x.com>", "Bob <b@y.com>"]),
                               ("author_email", Value.list ["a@x.com", "b@y.com"])]]) :=
  ⟨rfl, by decide,
   c5_merge_authors
     [⟨Option.some "author", PyExpr.constant (PyConst.str "Alice, Bob")⟩,
      ⟨Option.some "author_email", PyExpr.constant (PyConst.str "a@x.com, b@y.com")⟩]
     (PyFunc.name "setup")
     [("author", Value.list ["Alice", "Bob"]),
      ("author_email", Value.list ["a@x.com", "b@y.com"])]
     (Option.some (Value.list ["a@x.com", "b@y.com"]))
     [Diag.addedList "author" ["Alice", "Bob"],
      Diag.addedList "author_email" ["a@x.com", "b@y.com"]]
     ["Alice", "Bob"] ["a@x.com", "b@y.com"]
     rfl rfl rfl (by decide)⟩

/-- Claim C6: when the loop produces a mapping with `author_email` but no
`author`, the merger's unconditional `metadata["author"]` lookup raises
KeyError: extraction returns no mapping. -/
theorem c6_keyerror (kws : List PyKeyword) (f : PyFunc) (m : Metadata)
    (v : Option Value) (d : List Diag) (e : Value)
    (hl : extractLoop kws [] Option.none [] = Except.ok (m, v, d))
    (hE : mget m "author_email" = Option.some e)
    (hA : mget m "author" = Option.none) :
    extract_metadata_from_setup ⟨f, kws⟩ = Except.error "KeyError: author" := by
  simp only [extract_metadata_from_setup, hl, hE, hA]

/-- Witness for `c6_keyerror` on `setup(author_email="a@x.com")`. -/
theorem c6_witness :
    (extractLoop [⟨Option.some "author_email", PyExpr.constant (PyConst.str "a@x.com")⟩]
        [] Option.none [] =
      Except.ok ([("author_email", Value.list ["a@x.com"])],
        Option.some (Value.list ["a@x.com"]),
        [Diag.addedList "author_email" ["a@x.com"]])) ∧
    (mget [("author_email", Value.list ["a@x.com"])] "author_email" =
      Option.some (Value.list ["a@x.com"])) ∧
    (mget [("author_email", Value.list ["a@x.com"])] "author" = Option.none) ∧
    extract_metadata_from_setup ⟨PyFunc.name "setup",
        [⟨Option.some "author_email", PyExpr.constant (PyConst.str "a@x.com")⟩]⟩ =
      Except.error "KeyError: author" :=
  ⟨rfl, rfl, rfl,
   c6_keyerror
     [⟨Option.some "author_email", PyExpr.constant (PyConst.str "a@x.com")⟩]
     (PyFunc.name "setup")
     [("author_email", Value.list ["a@x.com"])]
     (Option.some (Value.list ["a@x.com"]))
     [Diag.addedList "author_email" ["a@x.com"]]
     (Value.list ["a@x.com"])
     rfl rfl rfl⟩

/-- Claim C7: the scripts block is the newline-join of one line per entry,
whose key is the entry's base file name without extension and whose value
is the entry followed by `.__main__:main`; `scripts=["bin/mytool"]` yields
`mytool = "bin/mytool.__main__:main"`. -/
theorem c7_scripts_section (scripts : List String) (s : String) (h : s ∈ scripts) :
    scripts_section scripts = joinSep "\n" (scripts.map scriptLine) ∧
    scriptLine s = pySplitextRoot (pyBasename s) ++ " = \"" ++ s ++ ".__main__:main\"" ∧
    scriptLine s ∈ scripts.map scriptLine ∧
    scriptLine "bin/mytool" = "mytool = \"bin/mytool.__main__:main\"" :=
  ⟨rfl, rfl, List.mem_map_of_mem scriptLine h, by decide⟩

/-- Witness for `c7_scripts_section` at `scripts := ["bin/mytool"]`. -/
theorem c7_witness :
    ("bin/mytool" ∈ ["bin/mytool"]) ∧
    (scripts_section ["bin/mytool"] =
        joinSep "\n" (["bin/mytool"].map scriptLine) ∧
      scriptLine "bin/mytool" =
        pySplitextRoot (pyBasename "bin/mytool") ++ " = \"" ++ "bin/mytool" ++ ".__main__:main\"" ∧
      scriptLine "bin/mytool" ∈ ["bin/mytool"].map scriptLine ∧
      scriptLine "bin/mytool" = "mytool = \"bin/mytool.__main__:main\"") :=
  ⟨by decide, c7_scripts_section ["bin/mytool"] "bin/mytool" (by decide)⟩

/-- Claim C8: invoked with an argument count other than exactly two
positional arguments (three `sys.argv` entries), the entry point prints the
usage message and exits with status 1, performing no file reads or writes. -/
theorem c8_usage_exit (argv : List String) (fs : String → Option (List PyNode))
    (h : argv.length ≠ 3) :
    main argv fs = (MainResult.exited 1, [IOEvent.msg Diag.usage]) ∧
    ((main argv fs).2.all fun ev => !isFileEvent ev) = true := by
  have hm : main argv fs = (MainResult.exited 1, [IOEvent.msg Diag.usage]) := by
    match argv with
    | [] => rfl
    | [_] => rfl
    | [_, _] => rfl
    | [_, _, _] => exact absurd rfl h
    | _ :: _ :: _ :: _ :: _ => rfl
  refine ⟨hm, ?_⟩
  rw [hm]
  rfl

/-- Witness for `c8_usage_exit` with a single `sys.argv` entry. -/
theorem c8_witness :
    (["script.py"].length ≠ 3) ∧
    (main ["script.py"] (fun _ => Option.none) =
        (MainResult.exited 1, [IOEvent.msg Diag.usage]) ∧
      ((main ["script.py"] (fun _ => Option.none)).2.all fun ev => !isFileEvent ev) = true) :=
  ⟨by decide, c8_usage_exit ["script.py"] (fun _ => Option.none) (by decide)⟩

set_option maxRecDepth 8192 in
/-- Claim C9: the renderer returns the filled template after exactly one
left-to-right pass replacing each occurrence of two consecutive blank lines
(`"\n\n\n"`) by one (`"\n\n"`); the pass is not iterated to a fixed point,
so a mapping whose values inject a longer blank-line run still yields
output containing `"\n\n\n"`. -/
theorem c9_single_pass (m : Metadata) (t : String)
    (h : pyprojectTemplate m = Except.ok t) :
    generate_pyproject_toml m = Except.ok (pyReplace t "\n\n\n" "\n\n") ∧
    ∃ s, generate_pyproject_toml [("name", Value.str "x\n\n\n\n\n\n\nx")] =
        Except.ok s ∧ occursIn "\n\n\n" s = true := by
  constructor
  · simp only [generate_pyproject_toml, h]
  · exact ⟨_, rfl, by decide⟩

/-- Witness for `c9_single_pass` at the empty mapping. -/
theorem c9_witness :
    (pyprojectTemplate ([] : Metadata) =
      Except.ok ((pyprojectTemplate ([] : Metadata)).toOption.getD "")) ∧
    (generate_pyproject_toml ([] : Metadata) =
        Except.ok (pyReplace ((pyprojectTemplate ([] : Metadata)).toOption.getD "")
          "\n\n\n" "\n\n") ∧
      ∃ s, generate_pyproject_toml [("name", Value.str "x\n\n\n\n\n\n\nx")] =
          Except.ok s ∧ occursIn "\n\n\n" s = true) :=
  ⟨rfl, c9_single_pass [] ((pyprojectTemplate ([] : Metadata)).toOption.getD "") rfl⟩

end Py2Toml
